import Mathlib

/-!
Verification development for the browser-agent repository.

The definitions below are a shallow embedding of the Python source:
  - `src/omniparser/utils/boxes.py` (geometry utilities and the
    overlap-suppression merge),
  - `src/omniparser/parser.py` (the tail of `process_image`: sorting,
    id assignment, description lines, label coordinates),
  - `src/browser_agent/commands.py` (`CommandParser.parse` and the
    regex tag grammars),
  - `src/browser_agent/agent.py` (history truncation view,
    `_process_model_response`, `_build_message_content`),
  - `src/browser_agent/interaction.py` (`find_element_coordinates`).

Machine floats are modelled by exact rationals; Python division is
total division on `ℚ` (the difference only matters at division by
zero, which is noted where relevant).  Python regular expressions are
modelled by hand-written deterministic scanners over `List Char`; each
scanner is a faithful transcription of the corresponding pattern, all
of which are deterministic (no essential backtracking).
-/

/-- A bounding box as the four numbers `box[0] .. box[3]` of the Python
list; in xyxy call sites these are `x1, y1, x2, y2`, in xywh call
sites `x, y, w, h`. -/
structure Box4 where
  b0 : ℚ
  b1 : ℚ
  b2 : ℚ
  b3 : ℚ
deriving DecidableEq, Repr

/-- `calculate_box_area` from boxes.py: `(box[2]-box[0])*(box[3]-box[1])`. -/
def calculate_box_area (box : Box4) : ℚ :=
  (box.b2 - box.b0) * (box.b3 - box.b1)

/-- `calculate_intersection_area` from boxes.py. -/
def calculate_intersection_area (box1 box2 : Box4) : ℚ :=
  let x1 := max box1.b0 box2.b0
  let y1 := max box1.b1 box2.b1
  let x2 := min box1.b2 box2.b2
  let y2 := min box1.b3 box2.b3
  max 0 (x2 - x1) * max 0 (y2 - y1)

/-- `calculate_iou` from boxes.py.  The two per-box ratios are computed
exactly as in the source and used only when `return_max` is true. -/
def calculate_iou (box1 box2 : Box4) (return_max : Bool) : ℚ :=
  let intersection := calculate_intersection_area box1 box2
  let union := calculate_box_area box1 + calculate_box_area box2 - intersection
  let ratios : ℚ × ℚ :=
    if calculate_box_area box1 > 0 ∧ calculate_box_area box2 > 0 then
      (intersection / calculate_box_area box1, intersection / calculate_box_area box2)
    else (0, 0)
  if return_max then max (intersection / union) (max ratios.1 ratios.2)
  else intersection / union

/-- `is_box_inside` from boxes.py: note the strict `>` in the source. -/
def is_box_inside (box1 box2 : Box4) (threshold : ℚ := 19/20) : Bool :=
  calculate_intersection_area box1 box2 / calculate_box_area box1 > threshold

/-- One merge-pipeline element: a Python dict
`{type, bbox, interactivity, content}`. -/
structure PElem where
  type : String
  bbox : Box4
  interactivity : Bool
  content : Option String
deriving DecidableEq, Repr

/-- `process_box_with_ocr` from boxes.py: the first OCR box found inside
the detection relabels it as text; a detection inside an OCR box stays an
icon; otherwise no decision. -/
def process_box_with_ocr (box : PElem) (ocr_boxes : List PElem) : Option PElem :=
  match ocr_boxes with
  | [] => none
  | o :: rest =>
    if is_box_inside o.bbox box.bbox then
      some ⟨"text", box.bbox, true, o.content⟩
    else if is_box_inside box.bbox o.bbox then
      some ⟨"icon", box.bbox, true, none⟩
    else process_box_with_ocr box rest

/-- Python `sorted(boxes, key=lambda x: calculate_box_area(x["bbox"]), reverse=True)`:
a stable descending sort by area, modelled by the stable insertion sort. -/
def sortByAreaDesc (boxes : List PElem) : List PElem :=
  List.insertionSort (fun a b => calculate_box_area b.bbox ≤ calculate_box_area a.bbox) boxes

/-- The inner `for j, box2 in enumerate(sorted_boxes)` loop of
`remove_overlapping_boxes`: marks every distinct not-yet-used box whose
standard IoU with `box1` exceeds the threshold as used, and reports
whether `box1` stayed valid. -/
def innerScan (i : ℕ) (box1 : PElem) (indexed : List (ℕ × PElem)) (iou_threshold : ℚ)
    (used : List ℕ) : List ℕ × Bool :=
  indexed.foldl
    (fun st jb =>
      if jb.1 ≠ i ∧ jb.1 ∉ st.1 ∧ calculate_iou box1.bbox jb.2.bbox false > iou_threshold
      then (jb.1 :: st.1, false)
      else st)
    (used, true)

/-- `remove_overlapping_boxes` from boxes.py.  When `ocr_boxes` is empty
(Python `None` or `[]`, both falsy) the survivors are appended as raw
bboxes (`Sum.inr`), otherwise as processed element dicts (`Sum.inl`),
exactly as in the source. -/
def remove_overlapping_boxes (boxes : List PElem) (iou_threshold : ℚ)
    (ocr_boxes : List PElem) : List (PElem ⊕ Box4) :=
  let init : List (PElem ⊕ Box4) := ocr_boxes.map Sum.inl
  let indexed := (sortByAreaDesc boxes).enum
  let final :=
    indexed.foldl
      (fun (st : List ℕ × List (PElem ⊕ Box4)) ib =>
        if ib.1 ∈ st.1 then st
        else
          let scan := innerScan ib.1 ib.2 indexed iou_threshold st.1
          if scan.2 then
            let out : PElem ⊕ Box4 :=
              if ocr_boxes.isEmpty then Sum.inr ib.2.bbox
              else
                match process_box_with_ocr ib.2 ocr_boxes with
                | some p => Sum.inl p
                | none => Sum.inl ⟨"icon", ib.2.bbox, true, none⟩
            (ib.1 :: scan.1, st.2 ++ [out])
          else (scan.1, st.2))
      ([], init)
  final.2

/-- The Python-level error raised when `sorted(..., key=lambda x: x['content'])`
meets a raw bbox list instead of an element dict. -/
inductive PyError
  | typeError
deriving DecidableEq, Repr

/-- Checks that every merge output is an element dict (`Sum.inl`); a raw
bbox (`Sum.inr`, produced only on the OCR-less path) makes the sort key
`x['content']` of parser.py raise a TypeError. -/
def allDicts : List (PElem ⊕ Box4) → Option (List PElem)
  | [] => some []
  | (Sum.inl e) :: rest => (allDicts rest).map (fun l => e :: l)
  | (Sum.inr _) :: _ => none

/-- The sort key `x['content'] is None` of parser.py line 141. -/
def contentIsNone (e : PElem) : Bool := e.content.isNone

/-- Python `sorted(filtered_elements, key=lambda x: x['content'] is None)`:
stable ascending sort on the boolean key, so elements with content come
first.  Modelled by the stable insertion sort. -/
def textsFirst (l : List PElem) : List PElem :=
  List.insertionSort (fun a b => contentIsNone a ≤ contentIsNone b) l

instance : IsTotal PElem (fun a b => contentIsNone a ≤ contentIsNone b) :=
  ⟨fun a b => le_total _ _⟩

instance : IsTrans PElem (fun a b => contentIsNone a ≤ contentIsNone b) :=
  ⟨fun _ _ _ hab hbc => le_trans hab hbc⟩

/-- One content description line of parser.py lines 163-166:
`f"{'Text' if elem['type'] == 'text' else 'Icon'} Box ID {i}: {elem['content'] or ''}"`. -/
def descrLine (i : ℕ) (e : PElem) : String :=
  (if e.type = "text" then "Text" else "Icon") ++ " Box ID " ++ toString i ++ ": "
    ++ e.content.getD ""

/-- Denormalization `element_boxes * [width, height, width, height]`. -/
def denormBox (b : Box4) (w h : ℚ) : Box4 :=
  ⟨b.b0 * w, b.b1 * h, b.b2 * w, b.b3 * h⟩

/-- `box_convert(in_fmt="xyxy", out_fmt="xywh")` for one box. -/
def xyxyToXywh (b : Box4) : Box4 :=
  ⟨b.b0, b.b1, b.b2 - b.b0, b.b3 - b.b1⟩

/-- The tail of `OmniParser.process_image` (parser.py lines 134-166 and
186-187): merge, sort text-first, build content description lines, and
build the `label_coordinates` map (as an ordered key/value list) with keys
`str(i)` over the enumerated sorted elements. -/
def pipelineTail (objectElems textElems : List PElem) (iou_threshold w h : ℚ) :
    Except PyError (List PElem × List String × List (String × Box4)) :=
  let filtered := remove_overlapping_boxes objectElems iou_threshold textElems
  match allDicts filtered with
  | none => .error PyError.typeError
  | some elems =>
    let sorted_elements := textsFirst elems
    let content_descriptions := sorted_elements.enum.map (fun p => descrLine p.1 p.2)
    let label_coords := sorted_elements.enum.map
      (fun p => (toString p.1, xyxyToXywh (denormBox p.2.bbox w h)))
    .ok (sorted_elements, content_descriptions, label_coords)

/-- The failure conditions of `BrowserInteraction.find_element_coordinates`. -/
inductive FindError
  | elementNotFound
  | viewportUnavailable
deriving DecidableEq, Repr

/-- Python `int(...)` on a rational: truncation toward zero. -/
def pyInt (q : ℚ) : ℤ := if 0 ≤ q then ⌊q⌋ else ⌈q⌉

/-- `find_element_coordinates` from interaction.py.  The id-membership
check precedes the viewport check, as in the source; `label_coordinates`
is the Python dict modelled as an ordered key/value list; the screenshot
size and the live viewport size are the remaining inputs (the viewport is
`none` when `page.viewport_size` is unreadable). -/
def find_element_coordinates (element_id : String)
    (label_coordinates : List (String × Box4)) (screenshotW screenshotH : ℚ)
    (viewport : Option (ℚ × ℚ)) (bbox_format : String := "xywh") :
    Except FindError (ℤ × ℤ) :=
  match List.lookup element_id label_coordinates with
  | none => .error FindError.elementNotFound
  | some box =>
    match viewport with
    | none => .error FindError.viewportUnavailable
    | some vp =>
      let scale_x := vp.1 / screenshotW
      let scale_y := vp.2 / screenshotH
      let center_x := if bbox_format = "xywh" then box.b0 + box.b2 / 2
        else (box.b0 + box.b2) / 2
      let center_y := if bbox_format = "xywh" then box.b1 + box.b3 / 2
        else (box.b1 + box.b3) / 2
      .ok (pyInt (center_x * scale_x), pyInt (center_y * scale_y))

/-- Python slice `l[-n:]`; note that `l[-0:]` is the whole list. -/
def pyTailSlice {M : Type} (l : List M) (n : ℕ) : List M :=
  if n = 0 then l else l.drop (l.length - n)

/-- The truncation logic of `BrowserAgent._get_llm_response` (agent.py
lines 98-104): with `max_history_size = n` set and more than `n` stored
records, the model-facing view is
`[first record, truncation marker] ++ history[-n:]`. -/
def messagesForCall {M : Type} (history : List M) (maxHistorySize : Option ℕ)
    (marker : M) : List M :=
  match maxHistorySize with
  | none => history
  | some n =>
    if history.length > n then history.take 1 ++ [marker] ++ pyTailSlice history n
    else history

/-- `BrowserAgent._get_llm_response` up to the model call: append the new
human message to the stored history, then compute the (possibly
truncated) view; returns (view, stored history after the append).  The
view is a fresh list; the stored history is returned unchanged. -/
def getLlmCallMessages {M : Type} (history : List M) (userMsg : M)
    (maxHistorySize : Option ℕ) (marker : M) : List M × List M :=
  let stored := history ++ [userMsg]
  (messagesForCall stored maxHistorySize marker, stored)

/-- Python `\s` for the characters that can occur here: space, tab,
newline, carriage return, vertical tab, form feed. -/
def isPySpace (c : Char) : Bool :=
  c = ' ' || c = '\t' || c = '\n' || c = '\r' || c = '\x0b' || c = '\x0c'

/-- Consume an exact literal, returning the rest. -/
def litP (lit cs : List Char) : Option (List Char) :=
  if lit.isPrefixOf cs then some (cs.drop lit.length) else none

/-- Greedy `\s*`. -/
def wsStar (cs : List Char) : List Char := cs.dropWhile isPySpace

/-- Greedy `\s+`: at least one whitespace character, then all of them
(the following literal in every pattern starts with a non-space). -/
def wsPlus (cs : List Char) : Option (List Char) :=
  match cs with
  | c :: rest => if isPySpace c then some (wsStar rest) else none
  | [] => none

/-- Greedy `([^"]*)"`: the capture runs to the first double quote, which
is then consumed. -/
def quoted (cs : List Char) : Option (List Char × List Char) :=
  let content := cs.takeWhile (fun c => c ≠ '"')
  match cs.dropWhile (fun c => c ≠ '"') with
  | '"' :: after => some (content, after)
  | _ => none

/-- Greedy `(\d+)`: a nonempty maximal run of decimal digits. -/
def digitsP (cs : List Char) : Option (List Char × List Char) :=
  let ds := cs.takeWhile Char.isDigit
  if ds.isEmpty then none else some (ds, cs.drop ds.length)

/-- `\s*/>`, the closing of every tag pattern. -/
def closeP (cs : List Char) : Option (List Char) :=
  litP ['/', '>'] (wsStar cs)

/-- `<next\s*/>` anchored at the head; returns the rest after the match. -/
def matchNext (cs : List Char) : Option (Unit × List Char) := do
  let r1 ← litP "<next".data cs
  let r2 ← litP "/>".data (wsStar r1)
  pure ((), r2)

/-- `<back\s*/>` anchored at the head. -/
def matchBack (cs : List Char) : Option (Unit × List Char) := do
  let r1 ← litP "<back".data cs
  let r2 ← litP "/>".data (wsStar r1)
  pure ((), r2)

/-- `<scroll_down\s*/>` anchored at the head. -/
def matchScrollDown (cs : List Char) : Option (Unit × List Char) := do
  let r1 ← litP "<scroll_down".data cs
  let r2 ← litP "/>".data (wsStar r1)
  pure ((), r2)

/-- `<scroll_up\s*/>` anchored at the head. -/
def matchScrollUp (cs : List Char) : Option (Unit × List Char) := do
  let r1 ← litP "<scroll_up".data cs
  let r2 ← litP "/>".data (wsStar r1)
  pure ((), r2)

/-- `<thinking\s+message="([^"]*)"\s*/>` anchored at the head; the
capture is the message. -/
def matchThinking (cs : List Char) : Option (List Char × List Char) := do
  let r1 ← litP "<thinking".data cs
  let r2 ← wsPlus r1
  let r3 ← litP "message=\"".data r2
  let (msg, r4) ← quoted r3
  let r5 ← closeP r4
  pure (msg, r5)

/-- `<memorize\s+text="([^"]*)"\s*/>` anchored at the head. -/
def matchMemorize (cs : List Char) : Option (List Char × List Char) := do
  let r1 ← litP "<memorize".data cs
  let r2 ← wsPlus r1
  let r3 ← litP "text=\"".data r2
  let (txt, r4) ← quoted r3
  let r5 ← closeP r4
  pure (txt, r5)

/-- `<done\s+result="([^"]*)"\s*/>` anchored at the head. -/
def matchDone (cs : List Char) : Option (List Char × List Char) := do
  let r1 ← litP "<done".data cs
  let r2 ← wsPlus r1
  let r3 ← litP "result=\"".data r2
  let (res, r4) ← quoted r3
  let r5 ← closeP r4
  pure (res, r5)

/-- `<navigate\s+url="([^"]*)"\s*/>` anchored at the head. -/
def matchNavigate (cs : List Char) : Option (List Char × List Char) := do
  let r1 ← litP "<navigate".data cs
  let r2 ← wsPlus r1
  let r3 ← litP "url=\"".data r2
  let (url, r4) ← quoted r3
  let r5 ← closeP r4
  pure (url, r5)

/-- `<click\s+id="(\d+)"\s*/>` anchored at the head; the capture is the
digit string. -/
def matchClick (cs : List Char) : Option (List Char × List Char) := do
  let r1 ← litP "<click".data cs
  let r2 ← wsPlus r1
  let r3 ← litP "id=\"".data r2
  let (ds, r4) ← digitsP r3
  let r5 ← litP "\"".data r4
  let r6 ← closeP r5
  pure (ds, r6)

/-- `<type\s+text="([^"]*)"\s+id="(\d+)"(?:\s+enter="(true|false)")?\s*/>`
anchored at the head; captures are (text, id, optional raw enter group).
The optional group is attempted greedily: it can apply only when at
least one whitespace character follows the id attribute and the literal
`enter="` comes next; if the group's `true|false` body then fails to
match, the whole pattern fails, exactly as the regex does (the no-group
alternative would need `/` where `enter` stands). -/
def matchType (cs : List Char) :
    Option ((List Char × List Char × Option (List Char)) × List Char) := do
  let r1 ← litP "<type".data cs
  let r2 ← wsPlus r1
  let r3 ← litP "text=\"".data r2
  let (txt, r4) ← quoted r3
  let r5 ← wsPlus r4
  let r6 ← litP "id=\"".data r5
  let (ds, r7) ← digitsP r6
  let r8 ← litP "\"".data r7
  let hasWs : Bool :=
    match r8 with
    | c :: _ => isPySpace c
    | [] => false
  let r9 := wsStar r8
  if hasWs && ("enter=\"".data.isPrefixOf r9) then do
    let r10 ← litP "enter=\"".data r9
    match litP "true\"".data r10 with
    | some r11 => do
      let r12 ← closeP r11
      pure ((txt, ds, some "true".data), r12)
    | none => do
      let r11 ← litP "false\"".data r10
      let r12 ← closeP r11
      pure ((txt, ds, some "false".data), r12)
  else do
    let r10 ← litP "/>".data r9
    pure ((txt, ds, none), r10)

/-- `re.findall` for `COMMAND_EXTRACTOR = <[^>]+>`: every non-overlapping
leftmost occurrence of a `<`, one or more non-`>` characters, and a `>`.
The fuel is the input length; every step consumes at least one character,
so the fuel never runs out. -/
def findTagsAux : ℕ → List Char → List (List Char)
  | _, [] => []
  | 0, _ :: _ => []
  | fuel + 1, c :: rest =>
    if c = '<' then
      let body := rest.takeWhile (fun d => d ≠ '>')
      match rest.dropWhile (fun d => d ≠ '>') with
      | '>' :: after =>
        if body.isEmpty then findTagsAux fuel rest
        else ('<' :: (body ++ ['>'])) :: findTagsAux fuel after
      | _ => findTagsAux fuel rest
    else findTagsAux fuel rest

/-- `COMMAND_EXTRACTOR.findall(response)`. -/
def findTags (cs : List Char) : List (List Char) := findTagsAux cs.length cs

/-- `re.search`: the leftmost match of an anchored matcher (no pattern
here matches the empty string, so the end position can be skipped). -/
def reSearch {γ : Type} (m : List Char → Option (γ × List Char)) :
    List Char → Option γ
  | [] => none
  | c :: rest =>
    match m (c :: rest) with
    | some (g, _) => some g
    | none => reSearch m rest

/-- `re.finditer` capture lists: leftmost non-overlapping matches,
resuming after each match end.  Fuel as in `findTagsAux`. -/
def reFindAllAux {γ : Type} (m : List Char → Option (γ × List Char)) :
    ℕ → List Char → List γ
  | _, [] => []
  | 0, _ :: _ => []
  | fuel + 1, c :: rest =>
    match m (c :: rest) with
    | some (g, after) => g :: reFindAllAux m fuel after
    | none => reFindAllAux m fuel rest

/-- `re.finditer` capture lists over a string. -/
def reFindAll {γ : Type} (m : List Char → Option (γ × List Char))
    (cs : List Char) : List γ :=
  reFindAllAux m cs.length cs

/-- `re.sub(pattern, "", s)`: drop every leftmost non-overlapping match,
keep everything else.  Fuel as in `findTagsAux`. -/
def reSubDelAux {γ : Type} (m : List Char → Option (γ × List Char)) :
    ℕ → List Char → List Char
  | _, [] => []
  | 0, l => l
  | fuel + 1, c :: rest =>
    match m (c :: rest) with
    | some (_, after) => reSubDelAux m fuel after
    | none => c :: reSubDelAux m fuel rest

/-- `re.sub(pattern, "", s)` over a string. -/
def reSubDel {γ : Type} (m : List Char → Option (γ × List Char))
    (cs : List Char) : List Char :=
  reSubDelAux m cs.length cs

/-- Python `str.strip()`. -/
def pyStrip (cs : List Char) : List Char :=
  ((cs.dropWhile isPySpace).reverse.dropWhile isPySpace).reverse

/-- `CommandParser.COMMAND_EXTRACTOR.findall(response)` over the reply. -/
def extractTags (response : String) : List (List Char) := findTags response.data

/-- `" ".join(matches)` (commands.py line 50). -/
def joinedTags (response : String) : List Char :=
  List.intercalate " ".data (extractTags response)

/-- `bool(PATTERNS["next"].search(command_str))` (line 55). -/
def hasNextFlag (response : String) : Bool :=
  (reSearch matchNext (joinedTags response)).isSome

/-- `PATTERNS["next"].sub("", command_str).strip()` (line 57). -/
def strippedNext (response : String) : List Char :=
  pyStrip (reSubDel matchNext (joinedTags response))

/-- The last thinking match's message, `thinking_matches[-1].group(1)`
(lines 60-61). -/
def thinkingMsg (response : String) : Option (List Char) :=
  (reFindAll matchThinking (strippedNext response)).getLast?

/-- All memorize captures, in order (line 64). -/
def memoriesRaw (response : String) : List (List Char) :=
  reFindAll matchMemorize (strippedNext response)

/-- `PATTERNS["memorize"].sub("", command_str).strip()` (line 66). -/
def strippedMem (response : String) : List Char :=
  pyStrip (reSubDel matchMemorize (strippedNext response))

/-- `PATTERNS["done"].search(command_str)` group 1 (line 69). -/
def doneSearch (response : String) : Option (List Char) :=
  reSearch matchDone (strippedMem response)

/-- `PATTERNS["thinking"].sub("", command_str).strip()` (line 74): the
text remaining for the action grammars. -/
def remainingText (response : String) : List Char :=
  pyStrip (reSubDel matchThinking (strippedMem response))

/-- Python truthiness of `thinking_message` in `if not command_str and
thinking_message:` — `None` and the empty string are both falsy. -/
def thinkingTruthy (response : String) : Bool :=
  match thinkingMsg response with
  | some s => !s.isEmpty
  | none => false

/-- The `Command` dataclass of commands.py, with its defaults. -/
structure Command where
  type : String
  element_id : Option String := none
  text : Option String := none
  message : Option String := none
  url : Option String := none
  enter : Bool := false
  has_next : Bool := false
  memories : List String := []
  result : Option String := none
deriving DecidableEq, Repr

/-- The two `ValueError`s of `CommandParser.parse`. -/
inductive ParseError
  | noCommandFound
  | invalidCommandFormat (text : String)
deriving DecidableEq, Repr

/-- `CommandParser.parse` from commands.py.  The action grammars are
tried in the `PATTERNS` dict order with `thinking`, `next`, `memorize`
and `done` skipped (back, click, scroll_down, scroll_up, type,
navigate), each with Python `re.match`, i.e. anchored at the start of
the remaining text only. -/
def parse (response : String) : Except ParseError Command :=
  if (extractTags response).isEmpty then .error ParseError.noCommandFound
  else
    match doneSearch response with
    | some res =>
      .ok { type := "done", result := some (String.mk res),
            message := (thinkingMsg response).map String.mk,
            memories := (memoriesRaw response).map String.mk }
    | none =>
      if (remainingText response).isEmpty && thinkingTruthy response then
        .ok { type := "thinking", message := (thinkingMsg response).map String.mk,
              has_next := hasNextFlag response,
              memories := (memoriesRaw response).map String.mk }
      else
        match matchBack (remainingText response) with
        | some _ =>
          .ok { type := "back", message := (thinkingMsg response).map String.mk,
                has_next := hasNextFlag response,
                memories := (memoriesRaw response).map String.mk }
        | none =>
        match matchClick (remainingText response) with
        | some g =>
          .ok { type := "click", element_id := some (String.mk g.1),
                message := (thinkingMsg response).map String.mk,
                has_next := hasNextFlag response,
                memories := (memoriesRaw response).map String.mk }
        | none =>
        match matchScrollDown (remainingText response) with
        | some _ =>
          .ok { type := "scroll_down", message := (thinkingMsg response).map String.mk,
                has_next := hasNextFlag response,
                memories := (memoriesRaw response).map String.mk }
        | none =>
        match matchScrollUp (remainingText response) with
        | some _ =>
          .ok { type := "scroll_up", message := (thinkingMsg response).map String.mk,
                has_next := hasNextFlag response,
                memories := (memoriesRaw response).map String.mk }
        | none =>
        match matchType (remainingText response) with
        | some g =>
          .ok { type := "type", text := some (String.mk g.1.1),
                element_id := some (String.mk g.1.2.1),
                enter := g.1.2.2 == some "true".data,
                message := (thinkingMsg response).map String.mk,
                has_next := hasNextFlag response,
                memories := (memoriesRaw response).map String.mk }
        | none =>
        match matchNavigate (remainingText response) with
        | some g =>
          .ok { type := "navigate", url := some (String.mk g.1),
                message := (thinkingMsg response).map String.mk,
                has_next := hasNextFlag response,
                memories := (memoriesRaw response).map String.mk }
        | none => .error (ParseError.invalidCommandFormat (String.mk (remainingText response)))

/-- One content block of the message list built for the model
(agent.py `_build_message_content`). -/
inductive ContentBlock
  | text (s : String)
  | image_url (url : String)
deriving DecidableEq, Repr

/-- `BrowserAgent._build_message_content` (agent.py lines 63-77): when the
previous turn left the model "thinking", the content is the single text
block `<next />`; otherwise it is the context text, the screenshot image
block, and the user's input when non-empty.  The page capture is
external; its context string and encoded image are inputs here. -/
def buildMessageContent (userInput : String) (isThinking : Bool)
    (context encodedImage : String) : List ContentBlock :=
  if isThinking then [ContentBlock.text "<next />"]
  else
    [ContentBlock.text context,
     ContentBlock.image_url ("data:image/png;base64," ++ encodedImage)]
      ++ (if userInput.isEmpty then [] else [ContentBlock.text userInput])

/-- `BrowserAgent._process_model_response` (agent.py lines 148-162):
parse the reply; on success dispatch the command (the dispatch and the
page capture are external effects, abstracted by `exec`, which returns
the continue-automatically flag) and report whether the command was a
thinking command; on a parse `ValueError` display the reply as prose and
return `(continue_automatically, is_thinking) = (false, true)`. -/
def processModelResponse (exec : Command → Bool) (response : String) :
    Bool × Bool :=
  match parse response with
  | .error _ => (false, true)
  | .ok c => (exec c, c.type == "thinking")

/-- Intersection area is symmetric. -/
theorem calculate_intersection_area_comm (b1 b2 : Box4) :
    calculate_intersection_area b1 b2 = calculate_intersection_area b2 b1 := by
  unfold calculate_intersection_area
  rw [max_comm b1.b0 b2.b0, max_comm b1.b1 b2.b1, min_comm b1.b2 b2.b2, min_comm b1.b3 b2.b3]

/-- Standard IoU (`return_max = false`) is symmetric. -/
theorem calculate_iou_comm (b1 b2 : Box4) :
    calculate_iou b1 b2 false = calculate_iou b2 b1 false := by
  unfold calculate_iou
  simp only [if_neg, Bool.false_eq_true, if_false]
  rw [calculate_intersection_area_comm, add_comm (calculate_box_area b1)]

/-- C2: a pair of ICON boxes whose standard IoU strictly exceeds the
threshold, merged with no TEXT boxes, produces the empty list: each
member of the pair triggers suppression of the other, so both vanish
(all-remove-on-conflict, not single-winner NMS). -/
theorem C2_pair_overlap_both_suppressed (e1 e2 : PElem) (iou_threshold : ℚ)
    (h1 : e1.type = "icon") (h2 : e2.type = "icon")
    (hiou : calculate_iou e1.bbox e2.bbox false > iou_threshold) :
    remove_overlapping_boxes [e1, e2] iou_threshold [] = [] := by
  have hiou' : calculate_iou e2.bbox e1.bbox false > iou_threshold := by
    rwa [calculate_iou_comm]
  unfold remove_overlapping_boxes sortByAreaDesc
  by_cases hle : calculate_box_area e2.bbox ≤ calculate_box_area e1.bbox
  · simp [List.insertionSort, List.orderedInsert, hle, List.enum, List.enumFrom,
      innerScan, hiou, hiou']
  · simp [List.insertionSort, List.orderedInsert, hle, List.enum, List.enumFrom,
      innerScan, hiou, hiou']

/-- Witness for C2 at a concrete overlapping pair. -/
theorem C2_pair_overlap_both_suppressed_witness :
    calculate_iou ⟨0, 0, 1, 1⟩ ⟨0, 0, 1, 1⟩ false > (1/2 : ℚ) ∧
    remove_overlapping_boxes
      [⟨"icon", ⟨0, 0, 1, 1⟩, true, none⟩, ⟨"icon", ⟨0, 0, 1, 1⟩, true, none⟩]
      (1/2) [] = [] := by
  refine ⟨by norm_num [calculate_iou, calculate_intersection_area, calculate_box_area], ?_⟩
  exact C2_pair_overlap_both_suppressed _ _ _ rfl rfl
    (by norm_num [calculate_iou, calculate_intersection_area, calculate_box_area])

/-- C4 (amended): `is_box_inside` reports containment exactly when the
intersection covers strictly more than `threshold` of the inner box's own
area: the comparison in the source is `>`, not `≥`. -/
theorem C4_is_box_inside_iff_strict (box1 box2 : Box4) (threshold : ℚ)
    (h : 0 < calculate_box_area box1) :
    is_box_inside box1 box2 threshold = true ↔
      calculate_intersection_area box1 box2 / calculate_box_area box1 > threshold := by
  unfold is_box_inside
  exact decide_eq_true_iff

/-- Witness for C4 at a concrete contained pair. -/
theorem C4_is_box_inside_iff_strict_witness :
    0 < calculate_box_area ⟨0, 0, 1, 1⟩ ∧
    is_box_inside ⟨0, 0, 1, 1⟩ ⟨0, 0, 1, 1⟩ (1/2) = true := by
  refine ⟨by norm_num [calculate_box_area], ?_⟩
  exact (C4_is_box_inside_iff_strict _ _ _ (by norm_num [calculate_box_area])).mpr
    (by norm_num [calculate_intersection_area, calculate_box_area])

/-- Counterexample to C4 as stated: when the intersection covers exactly
`threshold` of the inner box's area (ratio 19/20 at threshold 19/20),
`is_box_inside` returns `false`, not `true`. -/
theorem C4_counterexample :
    calculate_intersection_area ⟨0, 0, 1, 1⟩ ⟨0, 0, 19/20, 1⟩ /
        calculate_box_area ⟨0, 0, 1, 1⟩ = 19/20 ∧
    is_box_inside ⟨0, 0, 1, 1⟩ ⟨0, 0, 19/20, 1⟩ (19/20) = false := by
  constructor <;>
    norm_num [calculate_intersection_area, calculate_box_area, is_box_inside]

/-- C7 (amended): for every box with positive extents in both axes,
`iou(a, a, false) = 1`. -/
theorem C7_iou_self_eq_one (a : Box4) (hx : a.b0 < a.b2) (hy : a.b1 < a.b3) :
    calculate_iou a a false = 1 := by
  have hA : 0 < calculate_box_area a := by
    unfold calculate_box_area
    exact mul_pos (by linarith) (by linarith)
  have hI : calculate_intersection_area a a = calculate_box_area a := by
    simp only [calculate_intersection_area, calculate_box_area, min_self, max_self]
    rw [max_eq_right (by linarith : (0:ℚ) ≤ a.b2 - a.b0),
      max_eq_right (by linarith : (0:ℚ) ≤ a.b3 - a.b1)]
  simp only [calculate_iou, Bool.false_eq_true, if_false]
  rw [hI]
  have hU : calculate_box_area a + calculate_box_area a - calculate_box_area a
      = calculate_box_area a := by ring
  rw [hU, div_self (ne_of_gt hA)]

/-- Witness for C7 at a concrete proper box. -/
theorem C7_iou_self_eq_one_witness :
    ((Box4.mk 0 0 2 3).b0 < (Box4.mk 0 0 2 3).b2 ∧
      (Box4.mk 0 0 2 3).b1 < (Box4.mk 0 0 2 3).b3) ∧
    calculate_iou ⟨0, 0, 2, 3⟩ ⟨0, 0, 2, 3⟩ false = 1 := by
  refine ⟨⟨by norm_num, by norm_num⟩, ?_⟩
  exact C7_iou_self_eq_one ⟨0, 0, 2, 3⟩ (by norm_num) (by norm_num)

/-- Counterexample to C7 as stated: for the inverted box `(1, 1, 0, 0)` the
self-IoU computed by the source is `0`, not `1` (the intersection helper
clamps negative extents to zero while the area helper does not). -/
theorem C7_counterexample :
    calculate_iou ⟨1, 1, 0, 0⟩ ⟨1, 1, 0, 0⟩ false = 0 ∧
    calculate_iou ⟨1, 1, 0, 0⟩ ⟨1, 1, 0, 0⟩ false ≠ 1 := by
  constructor <;>
    norm_num [calculate_iou, calculate_intersection_area, calculate_box_area]

/-- C6: whenever the pipeline tail produces an output, every element with
non-null content precedes every element with null content, the content
description at position `i` carries id `i`, and the label-coordinate keys
are exactly `"0" .. "N-1"` in order. -/
theorem C6_merge_output_invariants (objs texts : List PElem) (thr w h : ℚ)
    (elems : List PElem) (descrs : List String) (coords : List (String × Box4))
    (hout : pipelineTail objs texts thr w h = Except.ok (elems, descrs, coords)) :
    (∀ i j (hi : i < elems.length) (hj : j < elems.length), i < j →
      (elems.get ⟨j, hj⟩).content.isSome = true →
      (elems.get ⟨i, hi⟩).content.isSome = true) ∧
    descrs.length = elems.length ∧
    (∀ i (hi : i < elems.length) (hd : i < descrs.length),
      descrs.get ⟨i, hd⟩ = descrLine i (elems.get ⟨i, hi⟩)) ∧
    coords.map Prod.fst = (List.range elems.length).map (fun k => toString k) := by
  cases hall : allDicts (remove_overlapping_boxes objs thr texts) with
  | none =>
    simp only [pipelineTail, hall] at hout
    exact absurd hout (by simp)
  | some es =>
    simp only [pipelineTail, hall, Except.ok.injEq, Prod.mk.injEq] at hout
    obtain ⟨he, hd, hc⟩ := hout
    subst he hd hc
    refine ⟨?_, ?_, ?_, ?_⟩
    · intro i j hi hj hij hsome
      have hs : List.Sorted (fun a b => contentIsNone a ≤ contentIsNone b)
          (textsFirst es) :=
        List.sorted_insertionSort (fun a b => contentIsNone a ≤ contentIsNone b) es
      have hrel := hs.rel_get_of_lt (a := ⟨i, hi⟩) (b := ⟨j, hj⟩)
        (Fin.mk_lt_mk.mpr hij)
      simp only [contentIsNone] at hrel
      cases hgj : ((textsFirst es).get ⟨j, hj⟩).content with
      | none => rw [hgj] at hsome; exact absurd hsome (by simp)
      | some v =>
        cases hgi : ((textsFirst es).get ⟨i, hi⟩).content with
        | none =>
          rw [hgi, hgj, Option.isNone_none, Option.isNone_some] at hrel
          exact absurd hrel (by decide)
        | some u => simp [hgi]
    · simp
    · intro i hi hd2
      simp [List.get_eq_getElem, List.getElem_map, List.getElem_enum]
    · rw [List.map_map]
      have hcomp : (Prod.fst ∘ fun (p : ℕ × PElem) =>
          (toString p.1, xyxyToXywh (denormBox p.2.bbox w h)))
          = (fun (k : ℕ) => toString k) ∘ Prod.fst := rfl
      rw [hcomp, ← List.map_map, List.enum_map_fst]

/-- Witness for C6 at a concrete one-text one-icon input. -/
theorem C6_merge_output_invariants_witness :
    pipelineTail
      [⟨"icon", ⟨1/2, 1/2, 3/5, 3/5⟩, true, none⟩]
      [⟨"text", ⟨0, 0, 1/10, 1/10⟩, false, some "hello"⟩]
      (3/10) 100 100 =
      Except.ok
        ([⟨"text", ⟨0, 0, 1/10, 1/10⟩, false, some "hello"⟩,
          ⟨"icon", ⟨1/2, 1/2, 3/5, 3/5⟩, true, none⟩],
         ["Text Box ID 0: hello", "Icon Box ID 1: "],
         [("0", ⟨0, 0, 10, 10⟩), ("1", ⟨50, 50, 10, 10⟩)]) ∧
    ([("0", (⟨0, 0, 10, 10⟩ : Box4)), ("1", ⟨50, 50, 10, 10⟩)]).map Prod.fst =
      (List.range
        ([⟨"text", ⟨0, 0, 1/10, 1/10⟩, false, some "hello"⟩,
          (⟨"icon", ⟨1/2, 1/2, 3/5, 3/5⟩, true, none⟩ : PElem)]).length).map
        (fun k => toString k) := by
  have hout :
      pipelineTail
        [⟨"icon", ⟨1/2, 1/2, 3/5, 3/5⟩, true, none⟩]
        [⟨"text", ⟨0, 0, 1/10, 1/10⟩, false, some "hello"⟩]
        (3/10) 100 100 =
        Except.ok
          ([⟨"text", ⟨0, 0, 1/10, 1/10⟩, false, some "hello"⟩,
            ⟨"icon", ⟨1/2, 1/2, 3/5, 3/5⟩, true, none⟩],
           ["Text Box ID 0: hello", "Icon Box ID 1: "],
           [("0", ⟨0, 0, 10, 10⟩), ("1", ⟨50, 50, 10, 10⟩)]) := by
    norm_num [pipelineTail, remove_overlapping_boxes, sortByAreaDesc, innerScan,
      process_box_with_ocr, is_box_inside, calculate_iou, calculate_intersection_area,
      calculate_box_area, textsFirst, allDicts, descrLine, denormBox, xyxyToXywh,
      List.insertionSort, List.orderedInsert, contentIsNone, List.enum, List.enumFrom]
    exact ⟨⟨rfl, rfl⟩, rfl, rfl⟩
  exact ⟨hout, (C6_merge_output_invariants _ _ _ _ _ _ _ _ hout).2.2.2⟩

/-- C8: with a readable viewport (and a screenshot of positive size),
`find_element_coordinates` fails with `elementNotFound` exactly when the
id is absent from the map, and for a present id returns the box center
scaled per axis by viewport/screenshot and truncated to integers. -/
theorem C8_find_element_coordinates_spec (element_id : String)
    (label_coordinates : List (String × Box4)) (sw sh vw vh : ℚ)
    (hsw : 0 < sw) (hsh : 0 < sh) :
    (find_element_coordinates element_id label_coordinates sw sh (some (vw, vh)) "xywh"
        = .error FindError.elementNotFound
      ↔ List.lookup element_id label_coordinates = none) ∧
    (∀ box, List.lookup element_id label_coordinates = some box →
      find_element_coordinates element_id label_coordinates sw sh (some (vw, vh)) "xywh"
        = .ok (pyInt ((box.b0 + box.b2 / 2) * (vw / sw)),
               pyInt ((box.b1 + box.b3 / 2) * (vh / sh)))) := by
  constructor
  · cases hl : List.lookup element_id label_coordinates with
    | none => simp [find_element_coordinates, hl]
    | some box => simp [find_element_coordinates, hl]
  · intro box hl
    simp [find_element_coordinates, hl]

/-- Witness for C8: the spec's example, a box centered at (50%, 50%) of a
1000x800 screenshot on a 500x400 viewport, yields (250, 200). -/
theorem C8_find_element_coordinates_spec_witness :
    (0:ℚ) < 1000 ∧ (0:ℚ) < 800 ∧
    find_element_coordinates "5" [("5", ⟨400, 300, 200, 200⟩)] 1000 800
      (some (500, 400)) "xywh" = .ok (250, 200) := by
  refine ⟨by norm_num, by norm_num, ?_⟩
  have h := (C8_find_element_coordinates_spec "5" [("5", ⟨400, 300, 200, 200⟩)]
    1000 800 500 400 (by norm_num) (by norm_num)).2 ⟨400, 300, 200, 200⟩
    (by simp [List.lookup])
  rw [h]
  norm_num [pyInt]

/-- C5 (amended): for a configured maximum `n ≥ 1`, whenever the stored
history exceeds `n` records the view sent to the model is exactly
`[first record, marker] ++ last n records`, of length `n + 2`, and the
stored history itself is left unchanged by the view construction. -/
theorem C5_truncated_view (M : Type) (history : List M) (userMsg marker : M) (n : ℕ)
    (hn : 1 ≤ n) (hlen : (history ++ [userMsg]).length > n) :
    (getLlmCallMessages history userMsg (some n) marker).1
      = (history ++ [userMsg]).take 1 ++ [marker]
        ++ (history ++ [userMsg]).drop ((history ++ [userMsg]).length - n) ∧
    (getLlmCallMessages history userMsg (some n) marker).1.length = n + 2 ∧
    (getLlmCallMessages history userMsg (some n) marker).2 = history ++ [userMsg] := by
  have hview : (getLlmCallMessages history userMsg (some n) marker).1
      = (history ++ [userMsg]).take 1 ++ [marker]
        ++ (history ++ [userMsg]).drop ((history ++ [userMsg]).length - n) := by
    simp only [getLlmCallMessages, messagesForCall, pyTailSlice, if_pos hlen]
    rw [if_neg (by omega)]
  refine ⟨hview, ?_, rfl⟩
  rw [hview]
  simp only [List.length_append, List.length_take, List.length_drop,
    List.length_cons, List.length_nil] at hlen ⊢
  omega

/-- Witness for C5: the spec's example, `max_history_size = 4` with 10
stored records, gives a view of length 6 and an unchanged stored history. -/
theorem C5_truncated_view_witness :
    (1:ℕ) ≤ 4 ∧ (([1, 2, 3, 4, 5, 6, 7, 8, 9] ++ [10] : List ℕ)).length > 4 ∧
    (getLlmCallMessages [1, 2, 3, 4, 5, 6, 7, 8, 9] 10 (some 4) (0:ℕ)).1
      = [1, 0, 7, 8, 9, 10] ∧
    (getLlmCallMessages [1, 2, 3, 4, 5, 6, 7, 8, 9] 10 (some 4) (0:ℕ)).1.length = 4 + 2 := by
  refine ⟨by norm_num, by norm_num, by decide, ?_⟩
  exact (C5_truncated_view ℕ [1, 2, 3, 4, 5, 6, 7, 8, 9] 10 0 4
    (by norm_num) (by norm_num)).2.1

/-- Counterexample to C5 as stated: with `max_history_size = 0` (a value
the config loader accepts) and one stored record, the Python slice
`history[-0:]` is the whole list, so the view is
`[first, marker, first]` of length 3, not `n + 2 = 2`. -/
theorem C5_counterexample :
    messagesForCall [(7:ℕ)] (some 0) 99 = [7, 99, 7] ∧
    (messagesForCall [(7:ℕ)] (some 0) 99).length ≠ 0 + 2 := by decide

/-- With no bracketed tag in the reply, the done search finds nothing. -/
theorem doneSearch_of_no_tags (response : String)
    (h : extractTags response = []) : doneSearch response = none := by
  unfold doneSearch strippedMem strippedNext joinedTags
  rw [h]
  rfl

/-- C9: whenever the done search of `CommandParser.parse` finds a
well-formed done tag among the reply's bracketed tags, `parse` returns a
DONE directive carrying the done result text, the last thinking message
(or none) and all memorize texts in order, regardless of any action tags
in the reply — no action grammar is consulted. -/
theorem C9_done_short_circuits (response : String) (res : List Char)
    (h : doneSearch response = some res) :
    parse response
      = Except.ok { type := "done", result := some (String.mk res),
                    message := (thinkingMsg response).map String.mk,
                    memories := (memoriesRaw response).map String.mk } := by
  have hne : ¬ (extractTags response).isEmpty = true := by
    intro hcon
    rw [doneSearch_of_no_tags response (List.isEmpty_iff.mp hcon)] at h
    exact absurd h (by simp)
  unfold parse
  rw [if_neg hne, h]

/-- Witness for C9: a reply holding thinking, memorize, done, click and
next tags parses as DONE with the carried message and memory, ignoring
the click and next tags. -/
theorem C9_done_short_circuits_witness :
    doneSearch
        "<thinking message=\"t\" /><memorize text=\"m1\" /><done result=\"ok!\" /><click id=\"2\" /><next />"
      = some "ok!".data ∧
    parse
        "<thinking message=\"t\" /><memorize text=\"m1\" /><done result=\"ok!\" /><click id=\"2\" /><next />"
      = Except.ok { type := "done", result := some "ok!", message := some "t",
                    memories := ["m1"] } := by
  refine ⟨rfl, ?_⟩
  exact C9_done_short_circuits
    "<thinking message=\"t\" /><memorize text=\"m1\" /><done result=\"ok!\" /><click id=\"2\" /><next />"
    "ok!".data rfl

/-- C3 (amended): on every successful parse, the returned command's
`has_next` flag equals the presence of a well-formed next tag for every
directive kind except DONE; the DONE return path of the source omits
`has_next`, so a DONE directive always carries `has_next = false`, even
when a next tag is present. -/
theorem C3_has_next_flag (response : String) (c : Command)
    (h : parse response = Except.ok c) :
    (c.type ≠ "done" → c.has_next = hasNextFlag response) ∧
    (c.type = "done" → c.has_next = false) := by
  unfold parse at h
  by_cases h1 : (extractTags response).isEmpty = true
  · rw [if_pos h1] at h
    exact absurd h (by simp)
  · rw [if_neg h1] at h
    cases hd : doneSearch response with
    | some res =>
      rw [hd] at h
      injection h with h'
      subst h'
      exact ⟨fun hne => absurd rfl hne, fun _ => rfl⟩
    | none =>
      rw [hd] at h
      by_cases h2 : ((remainingText response).isEmpty && thinkingTruthy response) = true
      · rw [if_pos h2] at h
        injection h with h'
        subst h'
        exact ⟨fun _ => rfl, fun hcontra => by simp at hcontra⟩
      · rw [if_neg h2] at h
        cases hb : matchBack (remainingText response) with
        | some g =>
          rw [hb] at h; injection h with h'; subst h'
          exact ⟨fun _ => rfl, fun hcontra => by simp at hcontra⟩
        | none =>
        rw [hb] at h
        cases hc : matchClick (remainingText response) with
        | some g =>
          rw [hc] at h; injection h with h'; subst h'
          exact ⟨fun _ => rfl, fun hcontra => by simp at hcontra⟩
        | none =>
        rw [hc] at h
        cases hsd : matchScrollDown (remainingText response) with
        | some g =>
          rw [hsd] at h; injection h with h'; subst h'
          exact ⟨fun _ => rfl, fun hcontra => by simp at hcontra⟩
        | none =>
        rw [hsd] at h
        cases hsu : matchScrollUp (remainingText response) with
        | some g =>
          rw [hsu] at h; injection h with h'; subst h'
          exact ⟨fun _ => rfl, fun hcontra => by simp at hcontra⟩
        | none =>
        rw [hsu] at h
        cases ht : matchType (remainingText response) with
        | some g =>
          rw [ht] at h; injection h with h'; subst h'
          exact ⟨fun _ => rfl, fun hcontra => by simp at hcontra⟩
        | none =>
        rw [ht] at h
        cases hn : matchNavigate (remainingText response) with
        | some g =>
          rw [hn] at h; injection h with h'; subst h'
          exact ⟨fun _ => rfl, fun hcontra => by simp at hcontra⟩
        | none =>
          rw [hn] at h
          exact absurd h (by simp)

/-- Witness for C3: a back tag with a next tag parses with
`has_next = true`, matching the next-tag presence. -/
theorem C3_has_next_flag_witness :
    parse "<back /><next />"
      = Except.ok { type := "back", has_next := true } ∧
    Command.has_next { type := "back", has_next := true }
      = hasNextFlag "<back /><next />" := by
  refine ⟨rfl, ?_⟩
  exact (C3_has_next_flag "<back /><next />" { type := "back", has_next := true }
    rfl).1 (by decide)

/-- Counterexample to C3 as stated: a reply holding both a done tag and a
next tag parses as DONE with `has_next = false` although a well-formed
next tag is present. -/
theorem C3_counterexample :
    parse "<done result=\"x\" /><next />"
      = Except.ok { type := "done", result := some "x" } ∧
    Command.has_next { type := "done", result := some (some "x").get! } = false ∧
    hasNextFlag "<done result=\"x\" /><next />" = true := by
  exact ⟨rfl, rfl, rfl⟩

/-- C1 (amended): the source anchors each action grammar with `re.match`,
which matches a prefix, not the entire remaining text.  When no done tag
was found and the thinking-only return does not apply, `parse` raises
`InvalidCommandFormat` (carrying the remaining text) exactly when no
action grammar matches at the start of the remaining text; a remaining
text that begins with a well-formed action tag parses as that action,
with any trailing bracketed text ignored. -/
theorem C1_invalid_iff_no_action_head_match (response : String)
    (h1 : (extractTags response).isEmpty = false)
    (h2 : doneSearch response = none)
    (h3 : ((remainingText response).isEmpty && thinkingTruthy response) = false) :
    parse response
        = Except.error (ParseError.invalidCommandFormat (String.mk (remainingText response)))
      ↔ (matchBack (remainingText response) = none ∧
         matchClick (remainingText response) = none ∧
         matchScrollDown (remainingText response) = none ∧
         matchScrollUp (remainingText response) = none ∧
         matchType (remainingText response) = none ∧
         matchNavigate (remainingText response) = none) := by
  have hne : ¬ (extractTags response).isEmpty = true := by simp [h1]
  have h3' : ¬ ((remainingText response).isEmpty && thinkingTruthy response) = true := by
    simp [h3]
  constructor
  · intro hp
    unfold parse at hp
    rw [if_neg hne, h2, if_neg h3'] at hp
    cases hb : matchBack (remainingText response) with
    | some g => rw [hb] at hp; exact absurd hp (by simp)
    | none =>
    rw [hb] at hp
    cases hc : matchClick (remainingText response) with
    | some g => rw [hc] at hp; exact absurd hp (by simp)
    | none =>
    rw [hc] at hp
    cases hsd : matchScrollDown (remainingText response) with
    | some g => rw [hsd] at hp; exact absurd hp (by simp)
    | none =>
    rw [hsd] at hp
    cases hsu : matchScrollUp (remainingText response) with
    | some g => rw [hsu] at hp; exact absurd hp (by simp)
    | none =>
    rw [hsu] at hp
    cases ht : matchType (remainingText response) with
    | some g => rw [ht] at hp; exact absurd hp (by simp)
    | none =>
    rw [ht] at hp
    cases hn : matchNavigate (remainingText response) with
    | some g => rw [hn] at hp; exact absurd hp (by simp)
    | none =>
      -- the case analyses have rewritten each matcher occurrence to `none`
      exact ⟨rfl, rfl, rfl, rfl, rfl, rfl⟩
  · rintro ⟨hb, hc, hsd, hsu, ht, hn⟩
    unfold parse
    rw [if_neg hne, h2, if_neg h3', hb, hc, hsd, hsu, ht, hn]

/-- Witness for C1: a reply whose only tag `<foo />` matches no action
grammar raises `InvalidCommandFormat` carrying that text. -/
theorem C1_invalid_iff_no_action_head_match_witness :
    (extractTags "hello <foo />").isEmpty = false ∧
    doneSearch "hello <foo />" = none ∧
    ((remainingText "hello <foo />").isEmpty && thinkingTruthy "hello <foo />") = false ∧
    parse "hello <foo />"
      = Except.error (ParseError.invalidCommandFormat "<foo />") := by
  refine ⟨rfl, rfl, rfl, ?_⟩
  exact (C1_invalid_iff_no_action_head_match "hello <foo />" rfl rfl rfl).mpr
    ⟨rfl, rfl, rfl, rfl, rfl, rfl⟩

/-- Counterexample to C1 as stated: the remaining text
`<click id="3" /> <back />` is not entirely one action tag, yet `parse`
does not raise — it returns the click action, because `re.match` accepts
a prefix match and ignores the trailing `<back />`. -/
theorem C1_counterexample :
    parse "<click id=\"3\" /><back />"
      = Except.ok { type := "click", element_id := some "3" } := rfl

/-- C10: after a reply that fails to parse, `_process_model_response`
returns `continue_automatically = false` and `is_thinking = true`, and
with `is_thinking = true` the next turn's message content is exactly the
single text block `<next />`, whatever the fresh user input, context and
screenshot are — they are all omitted. -/
theorem C10_parse_failure_next_turn (exec : Command → Bool) (response : String)
    (e : ParseError) (userInput context encodedImage : String)
    (h : parse response = Except.error e) :
    processModelResponse exec response = (false, true) ∧
    buildMessageContent userInput (processModelResponse exec response).2
        context encodedImage
      = [ContentBlock.text "<next />"] := by
  have h1 : processModelResponse exec response = (false, true) := by
    unfold processModelResponse
    rw [h]
  refine ⟨h1, ?_⟩
  rw [h1]
  exact rfl

/-- Witness for C10: a tagless reply fails to parse, the turn returns
`(false, true)`, and the next message is the lone `<next />` block even
though the user typed a fresh instruction. -/
theorem C10_parse_failure_next_turn_witness :
    parse "no tags here" = Except.error ParseError.noCommandFound ∧
    processModelResponse (fun _ => true) "no tags here" = (false, true) ∧
    buildMessageContent "open a page" true "ctx" "img"
      = [ContentBlock.text "<next />"] := by
  refine ⟨rfl, ?_, ?_⟩
  · exact (C10_parse_failure_next_turn (fun _ => true) "no tags here"
      ParseError.noCommandFound "open a page" "ctx" "img" rfl).1
  · exact (C10_parse_failure_next_turn (fun _ => true) "no tags here"
      ParseError.noCommandFound "open a page" "ctx" "img" rfl).2

